import Mathlib

/-!
Shallow embedding of `SynchronizedWorkerThread.cpp` (namespace
`SynchronizedWorker`), the single-producer / single-consumer worker-thread
coordinator of the fingerprint HAL, together with proofs of its state-handoff
protocol.

Modelling conventions:
* `AsyncState` is the closed enumeration from the header, as used by the code.
* The shared state protected by `mEventfdMutex` — `currentState`,
  `desiredState`, and the eventfd counter — is one record `ThreadState`.
  `notifyCount` counts `mThreadStateChanged.notify_all()` broadcasts and
  `overrideWarnCount` counts the "Previous state was not consumed" warnings,
  so that theorems can observe both side effects.
* `LOG_ALWAYS_FATAL_IF` aborts the process; an aborting path is modelled as
  `Outcome.fatal r` with `r : FatalReason` naming which assertion fired.
* A `std::unique_lock` handle passed to the internal entry points is modelled
  by `LockHandle`: whether its mutex is `mEventfdMutex` and whether it owns
  the lock, which is exactly what the runtime assertion inspects.
* `eventfd_write(event_fd, 1)` can fail at the OS level; that environment
  outcome is an explicit boolean parameter `writeOk`.  On success the
  counter is incremented; `eventfd_read` (the fd is `EFD_NONBLOCK`)
  succeeds exactly when the counter is non-zero and clears it.
* `mThreadStateChanged.wait_for(lock, 3s, pred)` races with the worker
  thread: whatever the worker does to the shared state inside the 3-second
  window is an explicit parameter `eff : ThreadState → ThreadState`; the
  wait succeeds exactly when the predicate holds of the resulting state.
-/

namespace SynchronizedWorker

/-- The state enumeration of the coordinator (from the header, used
throughout the source). `Invalid` is the "no pending request" sentinel. -/
inductive AsyncState where
  | Invalid
  | Idle
  | Pause
  | Authenticate
  | Enroll
  | Stop
deriving DecidableEq

/-- Which `LOG_ALWAYS_FATAL_IF` assertion aborted the process. -/
inductive FatalReason where
  /-- From `Thread::Thread`: the handler is null. -/
  | nullHandler
  /-- From `Thread::Thread`: the eventfd could not be created. -/
  | eventfdCreateFailed
  /-- From `Thread::moveToState(state, lock)`: the assertion that the caller
  locked `mEventfdMutex` failed. -/
  | lockNotHeld
  /-- From `Thread::consumeState`: the requested state is `Invalid`. -/
  | invalidRequestedState
  /-- From `Thread::waitForState(state, lock)`: the 3-second wait timed out. -/
  | waitTimeout
  /-- From `Thread::Stop`: the stop handshake failed. -/
  | stopFailed
deriving DecidableEq

/-- Result of running a code path that may hit a `LOG_ALWAYS_FATAL_IF`. -/
inductive Outcome (α : Type) where
  | ok : α → Outcome α
  | fatal : FatalReason → Outcome α
deriving DecidableEq

/-- The shared state protected by `mEventfdMutex`, plus observation counters
for the two side effects (condition-variable broadcasts and override
warnings). -/
structure ThreadState where
  /-- Field `currentState`: last state the worker has entered. -/
  currentState : AsyncState
  /-- Field `desiredState`: pending request, or `Invalid` when none. -/
  desiredState : AsyncState
  /-- The eventfd counter behind `event_fd` (the Wake Channel). -/
  eventfdValue : Nat
  /-- Number of `mThreadStateChanged.notify_all()` broadcasts so far. -/
  notifyCount : Nat
  /-- Number of "Previous state was not consumed. Overriding" warnings. -/
  overrideWarnCount : Nat
deriving DecidableEq

/-- A `std::unique_lock<std::mutex>` handle as seen by the runtime assertion
in `Thread::moveToState(state, lock)`: which mutex it refers to and whether
it currently owns it. -/
structure LockHandle where
  /-- Whether `lock.mutex() == &mEventfdMutex`. -/
  mutexIsEventfdMutex : Bool
  /-- Whether `lock.owns_lock()`. -/
  ownsLock : Bool
deriving DecidableEq

/-- The condition `Thread::moveToState(state, lock)` asserts of its lock
argument: `lock.mutex() == &mEventfdMutex && lock.owns_lock()`. -/
def lockValid (lock : LockHandle) : Bool :=
  lock.mutexIsEventfdMutex && lock.ownsLock

/-- A lock freshly taken on `mEventfdMutex` by the public entry points
(`std::unique_lock<std::mutex> lock(mEventfdMutex)`). -/
def heldLock : LockHandle :=
  { mutexIsEventfdMutex := true, ownsLock := true }

/-- The `wait_timeout` constant of `Thread::waitForState`:
`std::chrono::seconds(3)`. -/
def waitTimeoutSeconds : Nat := 3

/-- The part of `Thread::moveToState(state, lock)` that records the request:
warn (observable as `overrideWarnCount`) if a previous request is still
pending, then overwrite `desiredState` with the new state. -/
def requestWrite (state : AsyncState) (s : ThreadState) : ThreadState :=
  if s.desiredState ≠ AsyncState.Invalid then
    { s with desiredState := state, overrideWarnCount := s.overrideWarnCount + 1 }
  else
    { s with desiredState := state }

/-- Effect of `eventfd_write(event_fd, 1)` on success: the counter is bumped. -/
def signalWake (s : ThreadState) : ThreadState :=
  { s with eventfdValue := s.eventfdValue + 1 }

/-- Embedding of `Thread::moveToState(AsyncState state, std::unique_lock<std::mutex> &lock)`:
assert the caller holds `mEventfdMutex` (fatal otherwise), warn-and-overwrite
`desiredState`, attempt the eventfd write (`writeOk` says whether the OS call
succeeds), and return whether that write succeeded. -/
def moveToStateLocked (lock : LockHandle) (state : AsyncState) (writeOk : Bool)
    (s : ThreadState) : Outcome (Bool × ThreadState) :=
  if lockValid lock then
    let s1 := requestWrite state s
    if writeOk then Outcome.ok (true, signalWake s1)
    else Outcome.ok (false, s1)
  else Outcome.fatal FatalReason.lockNotHeld

/-- Embedding of `Thread::moveToState(AsyncState state)`: take `mEventfdMutex`, delegate
to the lock-handle overload. -/
def moveToState (state : AsyncState) (writeOk : Bool) (s : ThreadState) :
    Outcome (Bool × ThreadState) :=
  moveToStateLocked heldLock state writeOk s

/-- Embedding of `Thread::waitForState(AsyncState state, std::unique_lock<std::mutex> &lock)`:
call `moveToState` (which validates the lock); if it fails return `false`.
Otherwise wait up to `waitTimeoutSeconds` on `mThreadStateChanged` for
`currentState == state`; `eff` is whatever the worker thread does to the
shared state within that window.  If the predicate holds of the resulting
state the wait succeeded and `true` is returned; otherwise the 3-second
timeout elapsed and `LOG_ALWAYS_FATAL_IF` aborts. -/
def waitForStateLocked (lock : LockHandle) (state : AsyncState) (writeOk : Bool)
    (eff : ThreadState → ThreadState) (s : ThreadState) :
    Outcome (Bool × ThreadState) :=
  match moveToStateLocked lock state writeOk s with
  | Outcome.fatal r => Outcome.fatal r
  | Outcome.ok (false, s1) => Outcome.ok (false, s1)
  | Outcome.ok (true, s1) =>
    let s2 := eff s1
    if s2.currentState = state then Outcome.ok (true, s2)
    else Outcome.fatal FatalReason.waitTimeout

/-- Embedding of `Thread::waitForState(AsyncState state)`: take `mEventfdMutex`, delegate
to the lock-handle overload. -/
def waitForState (state : AsyncState) (writeOk : Bool)
    (eff : ThreadState → ThreadState) (s : ThreadState) :
    Outcome (Bool × ThreadState) :=
  waitForStateLocked heldLock state writeOk eff s

/-- Embedding of `Thread::consumeState`: under the lock, do a non-blocking
`eventfd_read` (succeeds exactly when the counter is non-zero, clearing
it).  If it succeeded, a request is pending: abort fatally if
`desiredState` is `Invalid`, else consume `desiredState`.  If nothing was
pending the consumed state defaults to `Idle`.  Then set `currentState`
to the consumed state, reset `desiredState` to `Invalid`, and broadcast
`mThreadStateChanged` — all before the lock is released. -/
def consumeState (s : ThreadState) : Outcome (AsyncState × ThreadState) :=
  if s.eventfdValue ≠ 0 then
    if s.desiredState = AsyncState.Invalid then
      Outcome.fatal FatalReason.invalidRequestedState
    else
      Outcome.ok (s.desiredState,
        { s with
          eventfdValue := 0
          currentState := s.desiredState
          desiredState := AsyncState.Invalid
          notifyCount := s.notifyCount + 1 })
  else
    Outcome.ok (AsyncState.Idle,
      { s with
        currentState := AsyncState.Idle
        desiredState := AsyncState.Invalid
        notifyCount := s.notifyCount + 1 })

/-- The `switch (nextState)` dispatch of `Thread::RunThread`, for the
non-`Stop` branches, run without the lock held.  `handler` is the effect on
the shared state of the externally supplied `WorkHandler` method invoked for
`Idle` / `Authenticate` / `Enroll` (the handler may call back into the public
API).  `Pause` blocks in `isEventAvailable(-1)`, a read-only poll of the
eventfd; the `default` branch (an unexpected value such as `Invalid`) only
logs a warning. -/
def dispatch (handler : AsyncState → ThreadState → ThreadState)
    (state : AsyncState) (s : ThreadState) : ThreadState :=
  match state with
  | AsyncState.Idle => handler AsyncState.Idle s
  | AsyncState.Pause => s
  | AsyncState.Authenticate => handler AsyncState.Authenticate s
  | AsyncState.Enroll => handler AsyncState.Enroll s
  | AsyncState.Stop => s
  | AsyncState.Invalid => s

/-- Result of one iteration of the `for (;;)` loop in `Thread::RunThread`:
either the loop returned (the `Stop` branch) or it continues with the
updated shared state. -/
inductive StepResult where
  | exitLoop : ThreadState → StepResult
  | next : ThreadState → StepResult
deriving DecidableEq

/-- One iteration of `Thread::RunThread`: consume a state; on `Stop`,
return from the loop; otherwise dispatch and then set `currentState`
back to `Idle` before the next iteration. -/
def runThreadStep (handler : AsyncState → ThreadState → ThreadState)
    (s : ThreadState) : Outcome StepResult :=
  match consumeState s with
  | Outcome.fatal r => Outcome.fatal r
  | Outcome.ok (st, s1) =>
    match st with
    | AsyncState.Stop => Outcome.ok (StepResult.exitLoop s1)
    | _ =>
      Outcome.ok (StepResult.next
        { dispatch handler st s1 with currentState := AsyncState.Idle })

/-- Embedding of `Thread::RunThread` as a fuel-indexed iteration of `runThreadStep`:
`ok (some ts)` when the loop returned via the `Stop` branch with shared
state `ts`, `ok none` when the fuel ran out with the loop still running. -/
def runThread (handler : AsyncState → ThreadState → ThreadState) :
    Nat → ThreadState → Outcome (Option ThreadState)
  | 0, _ => Outcome.ok none
  | fuel + 1, s =>
    match runThreadStep handler s with
    | Outcome.fatal r => Outcome.fatal r
    | Outcome.ok (StepResult.exitLoop ts) => Outcome.ok (some ts)
    | Outcome.ok (StepResult.next ts) => runThread handler fuel ts

/-- A coordinator object (`Thread`): the handler pointer, the eventfd
descriptor, the shared state, whether the worker `std::thread` is joinable,
and whether `close(event_fd)` has run. -/
structure Coord where
  /-- Whether `mHandler` is null. -/
  handlerIsNull : Bool
  /-- Descriptor `event_fd`, the return value of `eventfd(0, ...)`. -/
  event_fd : Int
  /-- The shared state behind `mEventfdMutex`. -/
  ts : ThreadState
  /-- Whether `thread.joinable()`. -/
  joinable : Bool
  /-- Whether the destructor has closed `event_fd`. -/
  fdClosed : Bool
deriving DecidableEq

/-- Embedding of `Thread::Thread(WorkHandler *handler)`: abort fatally if the handler is
null; call `eventfd` (its return value `fdRet` is an environment input) and
abort fatally if it is negative.  Otherwise the coordinator is constructed,
not yet started. -/
def mkThread (handlerIsNull : Bool) (fdRet : Int) : Outcome Coord :=
  if handlerIsNull then Outcome.fatal FatalReason.nullHandler
  else if fdRet < 0 then Outcome.fatal FatalReason.eventfdCreateFailed
  else
    Outcome.ok
      { handlerIsNull := false
        event_fd := fdRet
        ts :=
          { currentState := AsyncState.Idle
            desiredState := AsyncState.Invalid
            eventfdValue := 0
            notifyCount := 0
            overrideWarnCount := 0 }
        joinable := false
        fdClosed := false }

/-- Embedding of `Thread::Start`: spawn the worker thread (it becomes joinable). -/
def Start (c : Coord) : Coord :=
  { c with joinable := true }

/-- Embedding of `Thread::Stop`: take `mEventfdMutex`; if the worker thread is joinable,
perform the `waitForState(Stop, lock)` handshake (with `eff` the concurrent
activity of the worker during the bounded wait), abort fatally if it reports
failure, and join the thread.  If the thread is not joinable, do nothing. -/
def Stop (writeOk : Bool) (eff : ThreadState → ThreadState) (c : Coord) :
    Outcome Coord :=
  if c.joinable then
    match waitForStateLocked heldLock AsyncState.Stop writeOk eff c.ts with
    | Outcome.fatal r => Outcome.fatal r
    | Outcome.ok (success, ts1) =>
      if success then Outcome.ok { c with ts := ts1, joinable := false }
      else Outcome.fatal FatalReason.stopFailed
  else Outcome.ok c

/-- Embedding of the destructor: run `Stop()`, then `close(event_fd)`. -/
def destroy (writeOk : Bool) (eff : ThreadState → ThreadState) (c : Coord) :
    Outcome Coord :=
  match Stop writeOk eff c with
  | Outcome.fatal r => Outcome.fatal r
  | Outcome.ok c1 => Outcome.ok { c1 with fdClosed := true }

/-- A concrete initial shared state, used to instantiate theorems at a
point: idle worker, no pending request, empty eventfd. -/
def tsInit : ThreadState :=
  { currentState := AsyncState.Idle
    desiredState := AsyncState.Invalid
    eventfdValue := 0
    notifyCount := 0
    overrideWarnCount := 0 }

/-- A concrete worker behaviour during a bounded wait: the worker
acknowledges by entering `state`. -/
def effEnter (state : AsyncState) (s : ThreadState) : ThreadState :=
  { s with currentState := state }

end SynchronizedWorker

open SynchronizedWorker

/-- C2: every invocation of `consumeState` that returns (does not abort)
sets `currentState` to the consumed state, resets `desiredState` to
`Invalid`, and broadcasts the change notification, all in the same
lock-held step; hence after any consume `desiredState` is `Invalid`. -/
theorem consumeState_atomic (s s1 : ThreadState) (st : AsyncState)
    (h : consumeState s = Outcome.ok (st, s1)) :
    s1.currentState = st ∧ s1.desiredState = AsyncState.Invalid ∧
      s1.notifyCount = s.notifyCount + 1 := by
  unfold consumeState at h
  split at h
  · split at h
    · simp at h
    · simp only [Outcome.ok.injEq, Prod.mk.injEq] at h
      obtain ⟨hst, hs1⟩ := h
      subst hs1
      subst hst
      exact ⟨rfl, rfl, rfl⟩
  · simp only [Outcome.ok.injEq, Prod.mk.injEq] at h
    obtain ⟨hst, hs1⟩ := h
    subst hs1
    subst hst
    exact ⟨rfl, rfl, rfl⟩

/-- Witness for `consumeState_atomic` at a concrete pending `Pause`
request. -/
theorem consumeState_atomic_witness :
    (⟨AsyncState.Pause, AsyncState.Invalid, 0, 1, 0⟩ : ThreadState).currentState
        = AsyncState.Pause ∧
    (⟨AsyncState.Pause, AsyncState.Invalid, 0, 1, 0⟩ : ThreadState).desiredState
        = AsyncState.Invalid ∧
    (⟨AsyncState.Pause, AsyncState.Invalid, 0, 1, 0⟩ : ThreadState).notifyCount
        = (⟨AsyncState.Idle, AsyncState.Pause, 1, 0, 0⟩ : ThreadState).notifyCount + 1 :=
  consumeState_atomic ⟨AsyncState.Idle, AsyncState.Pause, 1, 0, 0⟩
    ⟨AsyncState.Pause, AsyncState.Invalid, 0, 1, 0⟩ AsyncState.Pause (by decide)

/-- C3: in `consumeState`, when no wake signal is pending (the eventfd
counter is zero) the consumed state defaults to `Idle`, returning at once;
when a signal is pending but `desiredState` is `Invalid`, the worker aborts
fatally instead of consuming `Invalid`. -/
theorem consumeState_default_and_invalid (s : ThreadState) :
    (s.eventfdValue = 0 →
      consumeState s = Outcome.ok (AsyncState.Idle,
        { s with
          currentState := AsyncState.Idle
          desiredState := AsyncState.Invalid
          notifyCount := s.notifyCount + 1 })) ∧
    (s.eventfdValue ≠ 0 → s.desiredState = AsyncState.Invalid →
      consumeState s = Outcome.fatal FatalReason.invalidRequestedState) := by
  constructor
  · intro h0
    unfold consumeState
    simp [h0]
  · intro h0 hd
    unfold consumeState
    simp [h0, hd]

/-- Witness for `consumeState_default_and_invalid`: a pending signal with
`desiredState = Invalid` aborts fatally. -/
theorem consumeState_default_and_invalid_witness :
    consumeState ⟨AsyncState.Idle, AsyncState.Invalid, 1, 0, 0⟩ =
      Outcome.fatal FatalReason.invalidRequestedState :=
  (consumeState_default_and_invalid
    ⟨AsyncState.Idle, AsyncState.Invalid, 1, 0, 0⟩).2 (by decide) (by decide)

/-- C4: with a valid lock, `moveToState` overwrites `desiredState` with the
requested state unconditionally, emitting exactly one override warning when
a previous request was still pending (never an error and never an abort: the
result is always `ok`), signals the Wake Channel exactly when the eventfd
write succeeds, and returns exactly whether that write succeeded. -/
theorem moveToState_spec (lock : LockHandle) (state : AsyncState)
    (writeOk : Bool) (s : ThreadState) (hlock : lockValid lock = true) :
    moveToStateLocked lock state writeOk s =
      Outcome.ok (writeOk,
        if writeOk then signalWake (requestWrite state s)
        else requestWrite state s) ∧
    (requestWrite state s).desiredState = state ∧
    (signalWake (requestWrite state s)).eventfdValue = s.eventfdValue + 1 ∧
    (requestWrite state s).eventfdValue = s.eventfdValue ∧
    (requestWrite state s).overrideWarnCount =
      (if s.desiredState ≠ AsyncState.Invalid then s.overrideWarnCount + 1
       else s.overrideWarnCount) := by
  refine ⟨?_, ?_, ?_, ?_, ?_⟩
  · unfold moveToStateLocked
    rw [hlock]
    cases writeOk <;> simp
  · unfold requestWrite
    split <;> rfl
  · unfold signalWake requestWrite
    split <;> rfl
  · unfold requestWrite
    split <;> rfl
  · unfold requestWrite
    split <;> simp_all

/-- Witness for `moveToState_spec`: overriding a pending `Pause` with
`Enroll` warns once, signals the channel, and succeeds. -/
theorem moveToState_spec_witness :
    moveToStateLocked heldLock AsyncState.Enroll true
        ⟨AsyncState.Idle, AsyncState.Pause, 1, 0, 0⟩ =
      Outcome.ok (true, ⟨AsyncState.Idle, AsyncState.Enroll, 2, 0, 1⟩) := by
  have h := moveToState_spec heldLock AsyncState.Enroll true
    ⟨AsyncState.Idle, AsyncState.Pause, 1, 0, 0⟩ (by decide)
  rw [h.1]
  decide

/-- C6: calling either internal lock-handle entry point with a lock that is
on the wrong mutex or not held aborts fatally on entry (for `waitForState`
the assertion fires inside its initial `moveToState` call, before anything
else happens). -/
theorem lockAssert_spec (lock : LockHandle) (state : AsyncState)
    (writeOk : Bool) (eff : ThreadState → ThreadState) (s : ThreadState)
    (hlock : lockValid lock = false) :
    moveToStateLocked lock state writeOk s =
        Outcome.fatal FatalReason.lockNotHeld ∧
    waitForStateLocked lock state writeOk eff s =
        Outcome.fatal FatalReason.lockNotHeld := by
  have h1 : moveToStateLocked lock state writeOk s =
      Outcome.fatal FatalReason.lockNotHeld := by
    unfold moveToStateLocked
    rw [hlock]
    simp
  refine ⟨h1, ?_⟩
  unfold waitForStateLocked
  rw [h1]

/-- Witness for `lockAssert_spec`: a lock handle on a different mutex. -/
theorem lockAssert_spec_witness :
    moveToStateLocked ⟨false, true⟩ AsyncState.Idle true tsInit =
        Outcome.fatal FatalReason.lockNotHeld ∧
    waitForStateLocked ⟨false, true⟩ AsyncState.Idle true
        (effEnter AsyncState.Idle) tsInit =
        Outcome.fatal FatalReason.lockNotHeld :=
  lockAssert_spec ⟨false, true⟩ AsyncState.Idle true
    (effEnter AsyncState.Idle) tsInit (by decide)

/-- C9: when the eventfd write fails, `moveToState` returns failure but
`desiredState` has already been overwritten with the requested state and is
not rolled back, while the Wake Channel is left unsignalled. -/
theorem moveToState_failedWrite_spec (lock : LockHandle) (state : AsyncState)
    (s : ThreadState) (hlock : lockValid lock = true) :
    moveToStateLocked lock state false s =
        Outcome.ok (false, requestWrite state s) ∧
    (requestWrite state s).desiredState = state ∧
    (requestWrite state s).eventfdValue = s.eventfdValue := by
  refine ⟨?_, ?_, ?_⟩
  · unfold moveToStateLocked
    rw [hlock]
    simp
  · unfold requestWrite
    split <;> rfl
  · unfold requestWrite
    split <;> rfl

/-- Witness for `moveToState_failedWrite_spec`: a failed write still
records the `Authenticate` request without signalling. -/
theorem moveToState_failedWrite_spec_witness :
    moveToStateLocked heldLock AsyncState.Authenticate false
        ⟨AsyncState.Idle, AsyncState.Pause, 0, 0, 0⟩ =
      Outcome.ok (false,
        requestWrite AsyncState.Authenticate
          ⟨AsyncState.Idle, AsyncState.Pause, 0, 0, 0⟩) ∧
    (requestWrite AsyncState.Authenticate
        ⟨AsyncState.Idle, AsyncState.Pause, 0, 0, 0⟩).desiredState =
      AsyncState.Authenticate ∧
    (requestWrite AsyncState.Authenticate
        ⟨AsyncState.Idle, AsyncState.Pause, 0, 0, 0⟩).eventfdValue =
      (⟨AsyncState.Idle, AsyncState.Pause, 0, 0, 0⟩ : ThreadState).eventfdValue :=
  moveToState_failedWrite_spec heldLock AsyncState.Authenticate
    ⟨AsyncState.Idle, AsyncState.Pause, 0, 0, 0⟩ (by decide)

/-- C1: with the lock held, `waitForState(S)` returns failure immediately
when the underlying `moveToState` (eventfd write) fails; otherwise it waits
on the change notification for `currentState = S`, bounded by the 3-second
`wait_timeout`, returning success when the worker (whose activity within
the bound is `eff`) has entered `S`; if the bound elapses without
`currentState = S` the process aborts fatally instead of returning. -/
theorem waitForState_spec (lock : LockHandle) (state : AsyncState)
    (writeOk : Bool) (eff : ThreadState → ThreadState) (s : ThreadState)
    (hlock : lockValid lock = true) :
    waitTimeoutSeconds = 3 ∧
    (writeOk = false →
      waitForStateLocked lock state writeOk eff s =
        Outcome.ok (false, requestWrite state s)) ∧
    (writeOk = true →
      ((eff (signalWake (requestWrite state s))).currentState = state →
        waitForStateLocked lock state writeOk eff s =
          Outcome.ok (true, eff (signalWake (requestWrite state s)))) ∧
      ((eff (signalWake (requestWrite state s))).currentState ≠ state →
        waitForStateLocked lock state writeOk eff s =
          Outcome.fatal FatalReason.waitTimeout)) := by
  have hm : ∀ w : Bool, moveToStateLocked lock state w s =
      Outcome.ok (w, if w then signalWake (requestWrite state s)
        else requestWrite state s) := by
    intro w
    unfold moveToStateLocked
    rw [hlock]
    cases w <;> simp
  refine ⟨rfl, ?_, ?_⟩
  · intro hw
    subst hw
    unfold waitForStateLocked
    rw [hm false]
    simp
  · intro hw
    subst hw
    constructor
    · intro hcur
      unfold waitForStateLocked
      rw [hm true]
      simp [hcur]
    · intro hcur
      unfold waitForStateLocked
      rw [hm true]
      simp [hcur]

/-- Witness for `waitForState_spec`: requesting `Pause` with a worker that
acknowledges within the bound succeeds. -/
theorem waitForState_spec_witness :
    waitForStateLocked heldLock AsyncState.Pause true
        (effEnter AsyncState.Pause) tsInit =
      Outcome.ok (true,
        effEnter AsyncState.Pause (signalWake (requestWrite AsyncState.Pause tsInit))) :=
  ((waitForState_spec heldLock AsyncState.Pause true
      (effEnter AsyncState.Pause) tsInit (by decide)).2.2 rfl).1 (by decide)

/-- C5: in each worker-loop iteration, consuming `Stop` exits the loop (the
body never runs again: the loop result no longer depends on the remaining
fuel), and for every other consumed state the loop dispatches and then sets
`currentState` back to `Idle` before the next iteration. -/
theorem runThread_stop_and_idle (handler : AsyncState → ThreadState → ThreadState)
    (fuel : Nat) (s s1 : ThreadState) (st : AsyncState)
    (h : consumeState s = Outcome.ok (st, s1)) :
    (st = AsyncState.Stop →
      runThreadStep handler s = Outcome.ok (StepResult.exitLoop s1) ∧
      runThread handler (fuel + 1) s = Outcome.ok (some s1)) ∧
    (st ≠ AsyncState.Stop →
      runThreadStep handler s = Outcome.ok (StepResult.next
        { dispatch handler st s1 with currentState := AsyncState.Idle }) ∧
      runThread handler (fuel + 1) s =
        runThread handler fuel
          { dispatch handler st s1 with currentState := AsyncState.Idle }) := by
  constructor
  · intro hst
    subst hst
    have hstep : runThreadStep handler s = Outcome.ok (StepResult.exitLoop s1) := by
      unfold runThreadStep
      rw [h]
    refine ⟨hstep, ?_⟩
    simp only [runThread]
    rw [hstep]
  · intro hst
    have hstep : runThreadStep handler s = Outcome.ok (StepResult.next
        { dispatch handler st s1 with currentState := AsyncState.Idle }) := by
      unfold runThreadStep
      rw [h]
      cases st <;> first | rfl | exact absurd rfl hst
    refine ⟨hstep, ?_⟩
    simp only [runThread]
    rw [hstep]

/-- Witness for `runThread_stop_and_idle`: a pending `Stop` request makes
the loop exit with the consumed shared state, for any remaining fuel. -/
theorem runThread_stop_and_idle_witness :
    runThreadStep (fun _ s => s) ⟨AsyncState.Idle, AsyncState.Stop, 1, 0, 0⟩ =
      Outcome.ok (StepResult.exitLoop ⟨AsyncState.Stop, AsyncState.Invalid, 0, 1, 0⟩) ∧
    runThread (fun _ s => s) 6 ⟨AsyncState.Idle, AsyncState.Stop, 1, 0, 0⟩ =
      Outcome.ok (some ⟨AsyncState.Stop, AsyncState.Invalid, 0, 1, 0⟩) :=
  (runThread_stop_and_idle (fun _ s => s) 5
    ⟨AsyncState.Idle, AsyncState.Stop, 1, 0, 0⟩
    ⟨AsyncState.Stop, AsyncState.Invalid, 0, 1, 0⟩
    AsyncState.Stop (by decide)).1 rfl

/-- C7: constructing the coordinator with a null handler aborts fatally,
failure to create the eventfd aborts fatally, and a successfully
constructed coordinator has a non-null handler and a valid (non-negative)
descriptor. -/
theorem construction_spec (handlerIsNull : Bool) (fdRet : Int) (c : Coord) :
    (handlerIsNull = true →
      mkThread handlerIsNull fdRet = Outcome.fatal FatalReason.nullHandler) ∧
    (handlerIsNull = false → fdRet < 0 →
      mkThread handlerIsNull fdRet = Outcome.fatal FatalReason.eventfdCreateFailed) ∧
    (mkThread handlerIsNull fdRet = Outcome.ok c →
      c.handlerIsNull = false ∧ 0 ≤ c.event_fd) := by
  refine ⟨?_, ?_, ?_⟩
  · intro h
    subst h
    simp [mkThread]
  · intro h hlt
    subst h
    unfold mkThread
    simp [hlt]
  · intro h
    unfold mkThread at h
    split at h
    · simp at h
    · split at h
      · simp at h
      · rename_i hge
        simp only [Outcome.ok.injEq] at h
        subst h
        refine ⟨rfl, ?_⟩
        show (0 : Int) ≤ fdRet
        omega

/-- Witness for `construction_spec`: a successful construction with
descriptor 3. -/
theorem construction_spec_witness :
    (⟨false, 3, tsInit, false, false⟩ : Coord).handlerIsNull = false ∧
    0 ≤ (⟨false, 3, tsInit, false, false⟩ : Coord).event_fd :=
  (construction_spec false 3 ⟨false, 3, tsInit, false, false⟩).2.2 (by decide)

/-- C8: when the worker thread is joinable, `Stop` performs the
`waitForState(Stop)` handshake: if the handshake returns success the
thread is joined (no longer joinable) with the handshake final shared
state, if the handshake reports failure the process aborts fatally; the
destructor runs this same stop sequence and only then closes the eventfd
(on a fatal stop the descriptor is never released). -/
theorem stop_destroy_spec (writeOk : Bool) (eff : ThreadState → ThreadState)
    (c : Coord) (ts1 : ThreadState) (hj : c.joinable = true) :
    (waitForStateLocked heldLock AsyncState.Stop writeOk eff c.ts =
        Outcome.ok (true, ts1) →
      Stop writeOk eff c = Outcome.ok { c with ts := ts1, joinable := false } ∧
      destroy writeOk eff c =
        Outcome.ok { c with ts := ts1, joinable := false, fdClosed := true }) ∧
    (waitForStateLocked heldLock AsyncState.Stop writeOk eff c.ts =
        Outcome.ok (false, ts1) →
      Stop writeOk eff c = Outcome.fatal FatalReason.stopFailed ∧
      destroy writeOk eff c = Outcome.fatal FatalReason.stopFailed) := by
  constructor
  · intro h
    have hstop : Stop writeOk eff c =
        Outcome.ok { c with ts := ts1, joinable := false } := by
      unfold Stop
      rw [hj, h]
      simp
    exact ⟨hstop, by unfold destroy; rw [hstop]⟩
  · intro h
    have hstop : Stop writeOk eff c = Outcome.fatal FatalReason.stopFailed := by
      unfold Stop
      rw [hj, h]
      simp
    exact ⟨hstop, by unfold destroy; rw [hstop]⟩

/-- Witness for `stop_destroy_spec`: a running worker that acknowledges
`Stop` is stopped, joined, and the destructor then closes the eventfd. -/
theorem stop_destroy_spec_witness :
    Stop true (effEnter AsyncState.Stop) ⟨false, 3, tsInit, true, false⟩ =
      Outcome.ok ⟨false, 3, ⟨AsyncState.Stop, AsyncState.Stop, 1, 0, 0⟩, false, false⟩ ∧
    destroy true (effEnter AsyncState.Stop) ⟨false, 3, tsInit, true, false⟩ =
      Outcome.ok ⟨false, 3, ⟨AsyncState.Stop, AsyncState.Stop, 1, 0, 0⟩, false, true⟩ :=
  (stop_destroy_spec true (effEnter AsyncState.Stop)
    ⟨false, 3, tsInit, true, false⟩
    ⟨AsyncState.Stop, AsyncState.Stop, 1, 0, 0⟩ (by decide)).1 (by decide)

/-- C10: calling `Stop` when the worker thread is not joinable is a no-op
(no handshake, no state change, no abort); moreover every successful `Stop`
leaves the thread non-joinable, so a second `Stop` after a successful one
is again a no-op. -/
theorem stop_noop_idempotent (writeOk writeOk2 : Bool)
    (eff eff2 : ThreadState → ThreadState) (c c1 : Coord) :
    (c.joinable = false → Stop writeOk eff c = Outcome.ok c) ∧
    (Stop writeOk eff c = Outcome.ok c1 → c1.joinable = false) ∧
    (Stop writeOk eff c = Outcome.ok c1 →
      Stop writeOk2 eff2 c1 = Outcome.ok c1) := by
  have hnoop : ∀ (w : Bool) (e : ThreadState → ThreadState) (d : Coord),
      d.joinable = false → Stop w e d = Outcome.ok d := by
    intro w e d hd
    simp [Stop, hd]
  have hjoin : Stop writeOk eff c = Outcome.ok c1 → c1.joinable = false := by
    intro h
    unfold Stop at h
    split at h
    · split at h
      · simp at h
      · split at h
        · simp only [Outcome.ok.injEq] at h
          subst h
          rfl
        · simp at h
    · rename_i hj
      simp only [Outcome.ok.injEq] at h
      subst h
      simpa using hj
  exact ⟨fun h => hnoop writeOk eff c h, hjoin,
    fun h => hnoop writeOk2 eff2 c1 (hjoin h)⟩

/-- Witness for `stop_noop_idempotent`: `Stop` on a never-started
coordinator returns it unchanged. -/
theorem stop_noop_idempotent_witness :
    Stop true (effEnter AsyncState.Stop) ⟨false, 3, tsInit, false, false⟩ =
      Outcome.ok ⟨false, 3, tsInit, false, false⟩ :=
  (stop_noop_idempotent true true (effEnter AsyncState.Stop)
    (effEnter AsyncState.Stop) ⟨false, 3, tsInit, false, false⟩
    ⟨false, 3, tsInit, false, false⟩).1 (by decide)
